import Mathlib

/-!
Verification of the adaptive RAG core of the CSV-Chatbot repository.

The development shallowly embeds the core operations of
`src/lib/vector-service.ts` (CSV parsing/reconstruction, adaptive
chunking, chunk-insert construction, the adaptive retrieval planner and
the query pipeline of `querySpecificDocuments`) and of
`src/app/api/chat/route.ts` (the relevance gate `checkIfDataRelated` and
the `POST` handler).

Modelling conventions:
- JavaScript strings are modelled as `String` or `List Char`;
  `.trim()` / `.toUpperCase()` are embedded as `listTrim` / `listToUpper`
  over `List Char` (so that concrete instances evaluate in the kernel).
- JavaScript numbers appearing in the retrieval-width policy are exact
  multiples of one tenth, so the policy is embedded in fixed-point
  arithmetic scaled by 10 (`retrievalK10`); `Math.round` becomes
  `jsRound10`.  (The IEEE-754 evaluation of `totalRows * 0.3` and
  `Math.round` agrees with exact rational arithmetic and round-half-up
  on every input, so the fixed-point embedding is exact.)
- External collaborators (the text splitter, the embedding provider, the
  completion model, store insert outcomes) are oracle parameters.
- Fallible code returns `Except`; the `try/catch` boundaries of the
  source are modelled by the corresponding structured results.
-/

namespace CsvChatbot

/-! ### JavaScript primitives -/

/-- Embedding of JavaScript `String.prototype.trim` on character lists. -/
def listTrim (s : List Char) : List Char :=
  ((s.dropWhile Char.isWhitespace).reverse.dropWhile Char.isWhitespace).reverse

/-- Embedding of JavaScript `String.prototype.toUpperCase` on character lists. -/
def listToUpper (s : List Char) : List Char :=
  s.map Char.toUpper

/-- JavaScript `s || d` for strings: the empty string is falsy. -/
def jsOrString (s d : String) : String :=
  if s = "" then d else s

/-- JavaScript `v || d` for a nullable number: `null` and `0` are falsy. -/
def jsOr (v : Option Nat) (d : Nat) : Nat :=
  match v with
  | none => d
  | some n => if n = 0 then d else n

/-- String trimming packaged back into `String`; used to state the
spec's "verbatim (trimmed)" requirement on the synthesizer output. -/
def trimmedString (s : String) : String :=
  ⟨listTrim s.data⟩

/-! ### Tabular Parser

`parseCsvToDocuments` (src/lib/vector-service.ts, lines 27-93) delegates
raw parsing to `Papa.parse(text, \x7b header: true, skipEmptyLines: true \x7d)`.
Modelled from the spec: the parsing semantics of that external call are
taken from §4.1 — the first row is the header, records are split on the
newline, fields on the delimiter `','`, and empty lines are skipped
(§4.1 does not specify quoting, so none is modelled).  The canonical
reconstruction (`csvContent`, lines 44-51) is embedded directly from the
source: header fields rejoined with `','`, one line per row, each row
rendered as its header-indexed fields with missing fields empty. -/

/-- Records of the raw text: split on `'\n'`, empty lines skipped. -/
def parseLines (t : List Char) : List (List Char) :=
  (t.splitOn '\n').filter (fun l => !l.isEmpty)

/-- Parse raw text into (header fields, per-row fields).  The first
non-empty line is the header row; every later line is one row-record. -/
def parseCsv (t : List Char) : List (List Char) × List (List (List Char)) :=
  match parseLines t with
  | [] => ([], [])
  | h :: rest => (h.splitOn ',', rest.map (fun l => l.splitOn ','))

/-- One reconstructed row line: `headers.map(h => row[h] || "").join(",")`
with header→value lookup positional (row-records are field lists). -/
def renderRow (headers : List (List Char)) (vs : List (List Char)) : List Char :=
  List.intercalate [','] ((List.range headers.length).map (fun i => vs.getD i []))

/-- The canonical reconstructed text stored as the document `content`:
`headers.join(",") + "\n" + data.map(renderRow).join("\n")`. -/
def csvContent (headers : List (List Char)) (rows : List (List (List Char))) : List Char :=
  List.intercalate [','] headers ++ '\n' :: List.intercalate ['\n'] (rows.map (renderRow headers))

/-! ### Ingestion pipeline (`processUploadedFile`, lines 98-293) -/

/-- Metadata attached to each parsed row document (lines 61-66; the
constant `type: "csv_row"` tag is elided). -/
structure DocMeta where
  source : String
  row : Nat
  headers : List String
deriving DecidableEq

/-- A parsed row document (`Document` with `pageContent` the flattened
`"header: value"` text). -/
structure RowDoc where
  pageContent : String
  metadata : DocMeta
deriving DecidableEq

/-- Chunk metadata after stamping: the spread `...doc.metadata` plus
`document_id` and `chunk_index` (lines 166-170 and 188-193). -/
structure StampedMeta where
  base : DocMeta
  document_id : Nat
  chunk_index : Nat
deriving DecidableEq

/-- A chunk document carrying stamped metadata. -/
structure StampedDoc where
  pageContent : String
  metadata : StampedMeta
deriving DecidableEq

/-- The adaptive chunking parameters (chunkSize, chunkOverlap) chosen
from the total row count (lines 139-158). -/
def chunkParams (totalRows : Nat) : Nat × Nat :=
  if totalRows ≤ 50 then (2000, 100)
  else if totalRows ≤ 500 then (1500, 75)
  else (800, 40)

/-- Construction of the stamped chunk documents (lines 160-196): datasets
of at most 10 rows bypass the splitter and keep one chunk per row; larger
datasets run the splitter (an oracle taking the chosen parameters) and
stamp its output.  Both branches stamp `document_id` and a positional
`chunk_index`. -/
def docsWithDocumentId (documentId : Nat) (docs : List RowDoc)
    (splitter : Nat × Nat → List RowDoc → List RowDoc) : List StampedDoc :=
  if docs.length ≤ 10 then
    docs.enum.map (fun p => ⟨p.2.pageContent, ⟨p.2.metadata, documentId, p.1⟩⟩)
  else
    ((splitter (chunkParams docs.length) docs).enum.map
      (fun p => ⟨p.2.pageContent, ⟨p.2.metadata, documentId, p.1⟩⟩))

/-- A row of the `document_chunks` relation as built by the bulk insert
(lines 214-221); `embedding` is `embeddings[index]` (absent when the
embedding list is too short). -/
structure ChunkInsert (E : Type) where
  document_id : Nat
  content : String
  chunk_index : Nat
  embedding : Option E
  metadata : StampedMeta
deriving DecidableEq

/-- The bulk chunk-insert payload (lines 215-221). -/
def chunkInserts {E : Type} (documentId : Nat) (stamped : List StampedDoc)
    (embeds : List E) : List (ChunkInsert E) :=
  stamped.enum.map (fun p => ⟨documentId, p.2.pageContent, p.1, embeds.get? p.1, p.2.metadata⟩)

/-- The uploaded file handle (name, size, MIME hint). -/
structure FileInfo where
  name : String
  size : Nat
  mimeType : String
deriving DecidableEq

/-- A row of the `documents` relation (lines 109-123). -/
structure StoredDocument where
  id : Nat
  filename : String
  file_size : Nat
  mime_type : String
  content : String
  row_count : Nat
  headers : List String
deriving DecidableEq

/-- The document metadata row inserted before chunking (lines 109-123):
`mime_type` falls back to "text/csv", `row_count` is the parsed row
count, `headers` come from the first row document. -/
def storedDocumentRow (file : FileInfo) (documentId : Nat) (docs : List RowDoc)
    (csvText : String) : StoredDocument :=
  ⟨documentId, file.name, file.size, jsOrString file.mimeType "text/csv", csvText,
    docs.length, ((docs.head?.map (fun d => d.metadata.headers)).getD [])⟩

/-- Persistent state touched by ingestion: the two relations. -/
structure IngestState (E : Type) where
  documents : List StoredDocument
  chunks : List (ChunkInsert E)
deriving DecidableEq

/-- The structured result of `processUploadedFile` (lines 16-22). -/
structure DocumentProcessResult where
  success : Bool
  chunksStored : Nat
  error : Option String
  filename : String
  documentId : Option Nat
deriving DecidableEq

/-- Embedding of `processUploadedFile` (lines 98-293).  The parser
outcome, the document-insert outcome, the splitter, the embedding batch
and the chunk-insert outcome are oracles; every thrown error is caught at
the function boundary and converted into a `success: false` result with
`chunksStored: 0` (lines 284-292), leaving the store state reached so
far — in particular there is no compensating delete of the already
inserted document row. -/
def processUploadedFile {E : Type} (st : IngestState E) (file : FileInfo)
    (parseResult : Except String (List RowDoc × String))
    (docInsert : Except String Nat)
    (splitter : Nat × Nat → List RowDoc → List RowDoc)
    (embedBatch : List String → Except String (List E))
    (chunkInsertError : Option String) :
    DocumentProcessResult × IngestState E :=
  match parseResult with
  | .error e => (⟨false, 0, some e, file.name, none⟩, st)
  | .ok (docs, csvText) =>
    match docInsert with
    | .error m => (⟨false, 0, some ("Failed to store document: " ++ m), file.name, none⟩, st)
    | .ok documentId =>
      let st1 : IngestState E :=
        ⟨st.documents ++ [storedDocumentRow file documentId docs csvText], st.chunks⟩
      let stamped := docsWithDocumentId documentId docs splitter
      match embedBatch (stamped.map (fun d => d.pageContent)) with
      | .error e => (⟨false, 0, some e, file.name, none⟩, st1)
      | .ok embeds =>
        let inserts := chunkInserts documentId stamped embeds
        match chunkInsertError with
        | some m =>
          (⟨false, 0, some ("Failed to insert chunks: " ++ m), file.name, none⟩, st1)
        | none =>
          (⟨true, inserts.length, none, file.name, some documentId⟩,
            ⟨st1.documents, st1.chunks ++ inserts⟩)

/-! ### Adaptive Chunker policy table of §4.2 (spec side, for refinement) -/

/-- The four tiers named by the §4.2 table. -/
inductive ChunkTier where
  | rowPerChunk
  | smallTier
  | mediumTier
  | largeTier
deriving DecidableEq

/-- Tier selection as written in the §4.2 table: `R ≤ 10` bypasses
splitting, `10 < R ≤ 50` / `50 < R ≤ 500` / `R > 500` are the three
splitting tiers. -/
def specTier (R : Nat) : ChunkTier :=
  if R ≤ 10 then .rowPerChunk
  else if R ≤ 50 then .smallTier
  else if R ≤ 500 then .mediumTier
  else .largeTier

/-- The (chunk size, overlap) column of the §4.2 table; `none` for the
no-chunking tier. -/
def specTierParams : ChunkTier → Option (Nat × Nat)
  | .rowPerChunk => none
  | .smallTier => some (2000, 100)
  | .mediumTier => some (1500, 75)
  | .largeTier => some (800, 40)

/-! ### Query path (`querySpecificDocuments`, lines 298-469) -/

/-- A row of the `documents` relation as read back by the query path
(`select("id, filename, metadata")`, lines 311-313); `rowCount` is the
possibly-absent `metadata.row_count`. -/
structure DocumentRow where
  id : Nat
  filename : String
  rowCount : Option Nat
deriving DecidableEq

/-- The projection of a stored chunk the count query needs. -/
structure ChunkRow where
  document_id : Nat
deriving DecidableEq

/-- Store state visible to the query path. -/
structure QueryState where
  documents : List DocumentRow
  chunks : List ChunkRow
deriving DecidableEq

/-- The JavaScript guard `documentIds && documentIds.length > 0` used at
lines 315, 350 and 410. -/
def scopeActive : Option (List Nat) → Bool
  | some ids => ids.length > 0
  | none => false

/-- The documents returned by the scoped select (lines 311-319): filtered
by `.in("id", documentIds)` when the scope guard holds, then `.limit(10)`. -/
def selectedDocuments (docs : List DocumentRow) (documentIds : Option (List Nat)) :
    List DocumentRow :=
  ((match documentIds with
    | some ids => if ids.length > 0 then docs.filter (fun d => ids.contains d.id) else docs
    | none => docs : List DocumentRow)).take 10

/-- The exact chunk count over the scope (lines 346-354). -/
def countScopedChunks (chunks : List ChunkRow) (documentIds : Option (List Nat)) : Nat :=
  ((match documentIds with
    | some ids => if ids.length > 0 then chunks.filter (fun c => ids.contains c.document_id) else chunks
    | none => chunks : List ChunkRow)).length

/-- The errors thrown by `querySpecificDocuments` before retrieval
(lines 321-333). -/
inductive QueryError where
  | storeError (msg : String)
  | noDocumentsWithIds
  | noCsvUploaded
deriving DecidableEq

/-- The message carried by each query error, verbatim from the source. -/
def QueryError.message : QueryError → String
  | .storeError m => "Failed to check documents: " ++ m
  | .noDocumentsWithIds => "No documents found with the specified IDs."
  | .noCsvUploaded => "No CSV file uploaded. Please upload a CSV file first before asking questions."

/-- The adaptive retrieval width of lines 362-380, scaled by 10 so that
the `totalRows * 0.3` tier is exact: the result is ten times the
JavaScript value of `retrievalK`.  `totalChunks` is `null` when the
count query failed; the `totalChunks || 50` and `totalChunks || 100`
fallbacks (JavaScript falsy on `null` and `0`) are `jsOr`. -/
def retrievalK10 (totalRows : Nat) (totalChunks : Option Nat) : Nat :=
  if totalRows ≤ 10 then 10 * max (jsOr totalChunks 50) 10
  else if totalRows ≤ 50 then 10 * min (max (jsOr totalChunks 100) 20) 100
  else if totalRows ≤ 500 then 10 * min totalRows 150
  else min (3 * totalRows) 2000

/-- `Math.round` on a value represented in tenths (round half away from
zero coincides with round half up on nonnegative values). -/
def jsRound10 (v : Nat) : Nat :=
  (v + 5) / 10

/-- The rounded retrieval width `k: Math.round(retrievalK)` handed to the
retriever (line 406). -/
def plannedK (totalRows : Nat) (totalChunks : Option Nat) : Nat :=
  jsRound10 (retrievalK10 totalRows totalChunks)

/-- Everything the retriever is configured with (lines 405-414). -/
structure RetrievalPlan where
  totalRows : Nat
  totalChunks : Option Nat
  k : Nat
  scopeFilter : Option (List Nat)
deriving DecidableEq

/-- The pure planning prefix of `querySpecificDocuments` (lines 302-414):
scoped document select with its error handling, aggregate row count,
scoped chunk count (reported as `none` exactly when the count query
errors, line 354-358), retrieval width, and the scope filter attached
only when the scope guard holds (lines 410-412).  Errors abort before
any retrieval is configured. -/
def planQuery (st : QueryState) (documentIds : Option (List Nat))
    (docError : Option String) (countError : Bool) : Except QueryError RetrievalPlan :=
  match docError with
  | some m => .error (.storeError m)
  | none =>
    let docsFound := selectedDocuments st.documents documentIds
    if docsFound.isEmpty then
      if scopeActive documentIds then .error .noDocumentsWithIds
      else .error .noCsvUploaded
    else
      let totalRows := (docsFound.map (fun d => d.rowCount.getD 0)).sum
      let totalChunks := if countError then none else some (countScopedChunks st.chunks documentIds)
      .ok ⟨totalRows, totalChunks, plannedK totalRows totalChunks,
        if scopeActive documentIds then documentIds else none⟩

/-- The fallback answer substituted for a falsy chain output
(lines 462-464). -/
def fallbackAnswer : String :=
  "Sorry, I could not find an answer to your question."

/-- The grounded prompt handed to the completion model (the source
template of lines 420-432 instantiated with the retrieved context and
the question; its fixed boilerplate text is elided). -/
def buildPrompt (question : String) (context : List String) : String :=
  String.intercalate "\n" context ++ "\n" ++ question

deriving instance DecidableEq for Except

/-- The observable outcome of one `querySpecificDocuments` call: the
returned (or thrown) value, whether a similarity search ran, and how
many completion calls were issued. -/
structure QueryRun where
  result : Except QueryError String
  searchPerformed : Bool
  completionCalls : Nat
deriving DecidableEq

/-- Embedding of the full `querySpecificDocuments` flow: plan, similarity
search (oracle `search`), one chain invocation (oracle `complete`), and
the `answer.answer || fallback` return of lines 462-464.  A planning
error propagates (lines 465-468 rethrow) with no search and no
completion call. -/
def runQuery (st : QueryState) (documentIds : Option (List Nat))
    (docError : Option String) (countError : Bool) (question : String)
    (search : RetrievalPlan → List String) (complete : String → String) : QueryRun :=
  match planQuery st documentIds docError countError with
  | .error e => ⟨.error e, false, 0⟩
  | .ok plan =>
    let context := search plan
    let output := complete (buildPrompt question context)
    ⟨.ok (jsOrString output fallbackAnswer), true, 1⟩

/-! ### Retrieval Planner policy table of §4.5 (spec side, for refinement) -/

/-- `clamp(x, lower, upper)` as used in the §4.5 table. -/
def clampNat (x lo hi : Nat) : Nat :=
  min (max x lo) hi

/-- The §4.5 table verbatim, scaled by 10: `max(C_total, 10)` /
`clamp(max(C_total, 20), lower=20, upper=100)` / `min(R_total, 150)` /
`min(R_total × 0.3, 200)`. -/
def specK10 (Rtotal Ctotal : Nat) : Nat :=
  if Rtotal ≤ 10 then 10 * max Ctotal 10
  else if Rtotal ≤ 50 then 10 * clampNat (max Ctotal 20) 20 100
  else if Rtotal ≤ 500 then 10 * min Rtotal 150
  else min (3 * Rtotal) 2000

/-- The §4.5 width rounded to the nearest integer. -/
def specPlannedK (Rtotal Ctotal : Nat) : Nat :=
  jsRound10 (specK10 Rtotal Ctotal)

/-! ### Relevance gate and POST handler (`src/app/api/chat/route.ts`) -/

/-- Embedding of `checkIfDataRelated` (route.ts lines 7-35) as a function
of the classifier completion text: the question is treated as
data-related iff `response.content.toString().trim().toUpperCase()`
equals `"YES"` exactly. -/
def checkIfDataRelated (response : String) : Bool :=
  listToUpper (listTrim response.data) = "YES".data

/-- The fixed refusal message returned on a gated question
(route.ts lines 59-64). -/
def refusalMessage : String :=
  "I can only answer questions about the CSV data you\x27ve uploaded. Please ask questions about your data such as counts, statistics, specific records, or data analysis."

/-- The HTTP responses the handler can produce. -/
inductive PostResponse where
  | badRequest (msg : String)
  | success (msg : String)
  | failure (msg : String)
deriving DecidableEq

/-- Observable outcome of one POST call: the response and whether the
retrieval pipeline (`querySpecificDocuments`, hence the document-store
select, the similarity search and the synthesizer call) was invoked
after the gate. -/
structure PostOutcome where
  response : PostResponse
  retrievalInvoked : Bool
deriving DecidableEq

/-- Embedding of `POST` (route.ts lines 37-94): message validation, the
relevance gate on the classifier output `gateResponse`, the
short-circuit refusal, and otherwise the query pipeline whose outcome is
the oracle `queryResult` (a thrown error becomes the 500 response of
lines 86-92). -/
def postHandler (message : String) (gateResponse : String)
    (queryResult : Except QueryError String) : PostOutcome :=
  if message = "" then ⟨.badRequest "Message is required and must be a string", false⟩
  else if listTrim message.data = [] then ⟨.badRequest "Message cannot be empty", false⟩
  else if checkIfDataRelated gateResponse then
    match queryResult with
    | .ok answer => ⟨.success answer, true⟩
    | .error _ => ⟨.failure "Failed to process chat message", true⟩
  else ⟨.success refusalMessage, false⟩

/-! ### Helper lemmas about `splitOn` and `intercalate` -/

theorem splitOnP_pieces_sat {α : Type _} (p : α → Bool) (xs : List α) :
    ∀ piece ∈ xs.splitOnP p, ∀ y ∈ piece, ¬p y = true := by
  induction xs with
  | nil =>
    intro piece hp y hy
    simp only [List.splitOnP_nil, List.mem_singleton] at hp
    subst hp
    simp at hy
  | cons a xs ih =>
    intro piece hp y hy
    rw [List.splitOnP_cons] at hp
    by_cases h : p a
    · rw [if_pos h] at hp
      rcases List.mem_cons.mp hp with rfl | hp
      · simp at hy
      · exact ih piece hp y hy
    · rw [if_neg h] at hp
      rcases hxs : xs.splitOnP p with _ | ⟨hd, tl⟩
      · exact absurd hxs (List.splitOnP_ne_nil p xs)
      · rw [hxs, List.modifyHead_cons] at hp
        rcases List.mem_cons.mp hp with rfl | hp
        · rcases List.mem_cons.mp hy with rfl | hy
          · exact h
          · exact ih hd (by rw [hxs]; exact List.mem_cons_self _ _) y hy
        · exact ih piece (by rw [hxs]; exact List.mem_cons_of_mem _ hp) y hy

theorem splitOnP_pieces_subset {α : Type _} (p : α → Bool) (xs : List α) :
    ∀ piece ∈ xs.splitOnP p, ∀ y ∈ piece, y ∈ xs := by
  induction xs with
  | nil =>
    intro piece hp y hy
    simp only [List.splitOnP_nil, List.mem_singleton] at hp
    subst hp
    simp at hy
  | cons a xs ih =>
    intro piece hp y hy
    rw [List.splitOnP_cons] at hp
    by_cases h : p a
    · rw [if_pos h] at hp
      rcases List.mem_cons.mp hp with rfl | hp
      · simp at hy
      · exact List.mem_cons_of_mem _ (ih piece hp y hy)
    · rw [if_neg h] at hp
      rcases hxs : xs.splitOnP p with _ | ⟨hd, tl⟩
      · exact absurd hxs (List.splitOnP_ne_nil p xs)
      · rw [hxs, List.modifyHead_cons] at hp
        rcases List.mem_cons.mp hp with rfl | hp
        · rcases List.mem_cons.mp hy with rfl | hy
          · exact List.mem_cons_self _ _
          · exact List.mem_cons_of_mem _
              (ih hd (by rw [hxs]; exact List.mem_cons_self _ _) y hy)
        · exact List.mem_cons_of_mem _
            (ih piece (by rw [hxs]; exact List.mem_cons_of_mem _ hp) y hy)

theorem splitOn_pieces_not_mem {α : Type _} [DecidableEq α] (x : α) (xs : List α) :
    ∀ piece ∈ xs.splitOn x, x ∉ piece := by
  intro piece hp hx
  have := splitOnP_pieces_sat (fun y => y == x) xs piece
    (by simpa [List.splitOn] using hp) x hx
  simp at this

theorem splitOn_pieces_subset {α : Type _} [DecidableEq α] (x : α) (xs : List α) :
    ∀ piece ∈ xs.splitOn x, ∀ y ∈ piece, y ∈ xs := by
  intro piece hp y hy
  exact splitOnP_pieces_subset (fun b => b == x) xs piece
    (by simpa [List.splitOn] using hp) y hy

theorem intercalate_nil_right {α : Type _} (c : α) :
    List.intercalate [c] ([] : List (List α)) = [] := by
  simp [List.intercalate]

theorem intercalate_one {α : Type _} (c : α) (x : List α) :
    List.intercalate [c] [x] = x := by
  simp [List.intercalate]

theorem intercalate_cons2 {α : Type _} (c : α) (x y : List α) (t : List (List α)) :
    List.intercalate [c] (x :: y :: t) = x ++ c :: List.intercalate [c] (y :: t) := by
  simp [List.intercalate, List.intersperse]

theorem intercalate_two_ne_nil {α : Type _} (c : α) (ws : List (List α))
    (h : 2 ≤ ws.length) : List.intercalate [c] ws ≠ [] := by
  rcases ws with _ | ⟨w0, _ | ⟨w1, t⟩⟩
  · simp at h
  · simp at h
  · rw [intercalate_cons2]
    cases w0 <;> simp

theorem not_mem_intercalate {α : Type _} (c a : α) (hne : a ≠ c)
    (ls : List (List α)) (hl : ∀ l ∈ ls, a ∉ l) :
    a ∉ List.intercalate [c] ls := by
  induction ls with
  | nil => simp [intercalate_nil_right]
  | cons x t ih =>
    rcases t with _ | ⟨y, t2⟩
    · rw [intercalate_one]
      exact hl x (List.mem_cons_self _ _)
    · rw [intercalate_cons2]
      intro hmem
      rcases List.mem_append.mp hmem with hx | hrest
      · exact hl x (List.mem_cons_self _ _) hx
      · rcases List.mem_cons.mp hrest with rfl | hrest
        · exact hne rfl
        · exact ih (fun l hm => hl l (List.mem_cons_of_mem _ hm)) hrest

theorem getD_eq_nil_or_mem {α : Type _} (vs : List (List α)) (i : Nat) :
    vs.getD i [] = [] ∨ vs.getD i [] ∈ vs := by
  rcases h : vs[i]? with _ | f
  · left
    simp [List.getD_eq_getElem?_getD, h]
  · right
    have : vs.getD i [] = f := by simp [List.getD_eq_getElem?_getD, h]
    rw [this]
    exact List.getElem?_mem h

theorem renderRow_ne_nil (H : List (List Char)) (vs : List (List Char))
    (hlen : 2 ≤ H.length) : CsvChatbot.renderRow H vs ≠ [] := by
  apply intercalate_two_ne_nil
  simpa using hlen

theorem not_newline_mem_renderRow (H : List (List Char)) (vs : List (List Char))
    (hvs : ∀ f ∈ vs, '\n' ∉ f) : '\n' ∉ CsvChatbot.renderRow H vs := by
  apply not_mem_intercalate _ _ (by decide)
  intro w hw
  rcases List.mem_map.mp hw with ⟨i, _, rfl⟩
  rcases getD_eq_nil_or_mem vs i with hw0 | hw0
  · rw [hw0]; simp
  · exact hvs _ hw0

theorem splitOn_append_newline (h body : List Char) (hnl : ∀ y ∈ h, y ≠ '\n') :
    (h ++ '\n' :: body).splitOn '\n' = h :: body.splitOn '\n' := by
  simp only [List.splitOn]
  exact List.splitOnP_first _ h (by intro y hy; simpa using hnl y hy) '\n' (by simp) body

theorem parseCsv_csvContent (h : List Char) (R : List (List (List Char)))
    (hhne : h ≠ []) (hnl : ∀ y ∈ h, y ≠ '\n')
    (hfieldnl : ∀ vs ∈ R, ∀ f ∈ vs, '\n' ∉ f)
    (hH2 : 2 ≤ (h.splitOn ',').length) :
    parseCsv (csvContent (h.splitOn ',') R) =
      (h.splitOn ',', R.map (fun vs => (renderRow (h.splitOn ',') vs).splitOn ',')) := by
  have hinter : List.intercalate [','] (h.splitOn ',') = h :=
    List.intercalate_splitOn h ','
  have hrow_ne : ∀ vs ∈ R, renderRow (h.splitOn ',') vs ≠ [] :=
    fun vs _ => renderRow_ne_nil _ vs hH2
  have hrow_nl : ∀ vs ∈ R, '\n' ∉ renderRow (h.splitOn ',') vs :=
    fun vs hvs => not_newline_mem_renderRow _ vs (hfieldnl vs hvs)
  have hcontent : csvContent (h.splitOn ',') R
      = h ++ '\n' :: List.intercalate ['\n'] (R.map (renderRow (h.splitOn ','))) := by
    rw [csvContent, hinter]
  rcases R with _ | ⟨r, rs⟩
  · have hie : h.isEmpty = false := by
      cases hcase : h.isEmpty
      · rfl
      · exact absurd (List.isEmpty_iff.mp hcase) hhne
    have hLines : parseLines (csvContent (h.splitOn ',') []) = [h] := by
      rw [hcontent]
      simp only [List.map_nil, intercalate_nil_right, parseLines,
        splitOn_append_newline h _ hnl, List.splitOn_nil]
      simp [List.filter, hie]
    simp only [parseCsv, hLines, List.map_nil]
  · have hmemlines : ∀ l ∈ h :: (r :: rs).map (renderRow (h.splitOn ',')), (!l.isEmpty) = true := by
      intro l hl
      rcases List.mem_cons.mp hl with rfl | hl
      · simpa [List.isEmpty_iff] using hhne
      · rcases List.mem_map.mp hl with ⟨vs, hvs, rfl⟩
        simpa [List.isEmpty_iff] using hrow_ne vs hvs
    have hLines : parseLines (csvContent (h.splitOn ',') (r :: rs)) =
        h :: (r :: rs).map (renderRow (h.splitOn ',')) := by
      rw [hcontent, parseLines, splitOn_append_newline h _ hnl,
        List.splitOn_intercalate _ '\n'
          (by intro l hl; rcases List.mem_map.mp hl with ⟨vs, hvs, rfl⟩; exact hrow_nl vs hvs)
          (by simp)]
      exact List.filter_eq_self.mpr hmemlines
    simp only [parseCsv, hLines, List.map_map]
    rfl

/-! ### Claim theorems -/

/-- C8 counterexample: the parse → reconstruct → re-parse round trip does
NOT always preserve the row count.  For the input `"a\n,1"` (one header
`a`, one data row whose `a`-field is empty) the original parse yields one
row, but the reconstruction renders that row as the empty line, which the
re-parse skips: the round trip yields zero rows. -/
theorem roundtrip_claim_fails_single_header :
    (parseCsv "a\n,1".toList).2.length = 1 ∧
    (parseCsv (csvContent (parseCsv "a\n,1".toList).1 (parseCsv "a\n,1".toList).2)).2.length = 0 := by
  decide

/-- C8 (amended): for every raw input whose parse yields at least two
header fields, re-parsing the canonical reconstructed text produced by
the parser yields the same header fields and the same row count as
parsing the original input.  (As stated the claim fails when there is a
single header and a row whose first field is empty — see
`roundtrip_claim_fails_single_header`.) -/
theorem parse_roundtrip_preserves_shape (t : List Char)
    (hlen : 2 ≤ (parseCsv t).1.length) :
    (parseCsv (csvContent (parseCsv t).1 (parseCsv t).2)).1 = (parseCsv t).1 ∧
    (parseCsv (csvContent (parseCsv t).1 (parseCsv t).2)).2.length = (parseCsv t).2.length := by
  rcases hL : parseLines t with _ | ⟨h, rest⟩
  · simp only [parseCsv, hL, List.length_nil] at hlen
    omega
  · have hPt : parseCsv t = (h.splitOn ',', rest.map (fun l => l.splitOn ',')) := by
      simp only [parseCsv, hL]
    have hmem : h ∈ parseLines t := by rw [hL]; exact List.mem_cons_self _ _
    have hhsplit : h ∈ t.splitOn '\n' := (List.mem_filter.mp hmem).1
    have hhne : h ≠ [] := by
      have h2 := (List.mem_filter.mp hmem).2
      simpa [List.isEmpty_iff] using h2
    have hnl : ∀ y ∈ h, y ≠ '\n' := by
      intro y hy hEq
      exact splitOn_pieces_not_mem '\n' t h hhsplit (hEq ▸ hy)
    have hfieldnl : ∀ vs ∈ rest.map (fun l => l.splitOn ','), ∀ f ∈ vs, '\n' ∉ f := by
      intro vs hvs f hf hy
      rcases List.mem_map.mp hvs with ⟨l, hl, rfl⟩
      have hlmem : l ∈ parseLines t := by rw [hL]; exact List.mem_cons_of_mem _ hl
      have hlsplit : l ∈ t.splitOn '\n' := (List.mem_filter.mp hlmem).1
      exact splitOn_pieces_not_mem '\n' t l hlsplit (splitOn_pieces_subset ',' l f hf '\n' hy)
    have hH2 : 2 ≤ (h.splitOn ',').length := by
      rw [hPt] at hlen
      exact hlen
    have hmain := parseCsv_csvContent h (rest.map (fun l => l.splitOn ',')) hhne hnl hfieldnl hH2
    rw [hPt]
    dsimp only
    constructor
    · rw [hmain]
    · rw [hmain]
      simp

/-- Witness for `parse_roundtrip_preserves_shape` at the concrete input
`"a,b\n1,2"`. -/
theorem parse_roundtrip_preserves_shape_witness :
    2 ≤ (parseCsv "a,b\n1,2".toList).1.length ∧
    ((parseCsv (csvContent (parseCsv "a,b\n1,2".toList).1
        (parseCsv "a,b\n1,2".toList).2)).1 = (parseCsv "a,b\n1,2".toList).1 ∧
      (parseCsv (csvContent (parseCsv "a,b\n1,2".toList).1
        (parseCsv "a,b\n1,2".toList).2)).2.length = (parseCsv "a,b\n1,2".toList).2.length) :=
  ⟨by decide, parse_roundtrip_preserves_shape _ (by decide)⟩

/-- C1 counterexample: when the scope reports the aggregate statistics
R_total = 5 and C_total = 0 (a reachable state: a document row can exist
with zero chunks after a failed ingestion), the planner computes k = 50
— the JavaScript `totalChunks || 50` treats the reported 0 as falsy —
while the §4.5 table prescribes k = max(0, 10) = 10. -/
theorem retrieval_width_claim_fails_at_zero_chunks :
    plannedK 5 (some 0) = 50 ∧ specPlannedK 5 0 = 10 := by
  decide

/-- C1 (amended): whenever the reported chunk statistic C_total is at
least 1, the planner's retrieval width is the deterministic function of
(R_total, C_total) given by the §4.5 table, rounded to the nearest
integer (half up) before the search is issued; when C_total = 0 the code
falls into its falsy fallback instead (k = 50 for R_total ≤ 10, k = 100
for 10 < R_total ≤ 50). -/
theorem retrieval_width_matches_spec_table (r c : Nat) (hc : 1 ≤ c) :
    plannedK r (some c) = specPlannedK r c := by
  have hz : c ≠ 0 := by omega
  unfold plannedK specPlannedK retrievalK10 specK10 jsOr clampNat jsRound10
  simp only [if_neg hz]
  split_ifs <;> omega

/-- Witness for `retrieval_width_matches_spec_table` at R_total = 5,
C_total = 12. -/
theorem retrieval_width_matches_spec_table_witness :
    1 ≤ 12 ∧ plannedK 5 (some 12) = specPlannedK 5 12 :=
  ⟨by decide, retrieval_width_matches_spec_table 5 12 (by decide)⟩

/-- C7 counterexample: when the chunk-count statistic is unavailable the
planner does not fall back to k = 50 in every tier: for R_total = 20
(the 10 < R ≤ 50 tier) the fallback constant is 100, so k = 100 ≠ 50.
The concrete plan also shows the query does not fail. -/
theorem fallback_k_claim_fails_tier_two :
    planQuery ⟨[⟨1, "data.csv", some 20⟩], []⟩ none none true =
      .ok ⟨20, none, 100, none⟩ ∧ (100 : Nat) ≠ 50 := by
  decide

/-- C7 (amended): when the chunk-count statistic is unavailable the
planner still does not fail the query — whether `planQuery` succeeds is
independent of the count outcome — but the fallback width is tiered, not
uniformly 50: k = 50 for R_total ≤ 10, k = 100 for 10 < R_total ≤ 50,
and for R_total > 50 the width never consults the chunk count
(min(R_total, 150), then min(R_total × 0.3, 200) rounded). -/
theorem fallback_k_values_by_tier (st : QueryState) (ids : Option (List Nat))
    (docError : Option String) (r : Nat) :
    ((planQuery st ids docError true).isOk = (planQuery st ids docError false).isOk) ∧
    plannedK r none =
      (if r ≤ 10 then 50
       else if r ≤ 50 then 100
       else if r ≤ 500 then min r 150
       else jsRound10 (min (3 * r) 2000)) := by
  constructor
  · unfold planQuery
    rcases docError with _ | m
    · dsimp only
      split_ifs <;> rfl
    · rfl
  · unfold plannedK retrievalK10 jsRound10
    simp only [jsOr]
    split_ifs <;> omega

/-- C2: the Adaptive Chunker's tier selection is a pure function of the
total row count matching the §4.2 table exactly at the boundaries
R = 10, 50, 500: R ≤ 10 bypasses splitting entirely with one chunk per
row whose content is the row's flattened content unchanged; the three
splitting tiers use (2000, 100), (1500, 75), (800, 40). -/
theorem chunker_tier_selection_matches_table (R documentId : Nat) (docs : List RowDoc)
    (splitter : Nat × Nat → List RowDoc → List RowDoc)
    (hsmall : docs.length ≤ 10) :
    ((specTier R = .rowPerChunk ↔ R ≤ 10) ∧
      (10 < R → specTierParams (specTier R) = some (chunkParams R))) ∧
    (docsWithDocumentId documentId docs splitter).map (fun c => c.pageContent)
      = docs.map (fun d => d.pageContent) ∧
    (docsWithDocumentId documentId docs splitter).length = docs.length := by
  refine ⟨⟨?_, ?_⟩, ?_, ?_⟩
  · unfold specTier
    split_ifs <;> simp_all
  · intro h10
    unfold specTier specTierParams chunkParams
    split_ifs <;> first | rfl | omega
  · simp only [docsWithDocumentId, if_pos hsmall, List.map_map]
    have h3 : ((fun c : StampedDoc => c.pageContent) ∘
          (fun p : Nat × RowDoc =>
            (⟨p.2.pageContent, ⟨p.2.metadata, documentId, p.1⟩⟩ : StampedDoc)))
        = ((fun d : RowDoc => d.pageContent) ∘ Prod.snd) := rfl
    rw [h3, ← List.map_map, List.enum_map_snd]
  · simp [docsWithDocumentId, if_pos hsmall]

/-- Witness for `chunker_tier_selection_matches_table` at R = 7 with a
single-row dataset. -/
theorem chunker_tier_selection_matches_table_witness :
    ([(⟨"name: a", ⟨"t.csv", 1, ["name"]⟩⟩ : RowDoc)] : List RowDoc).length ≤ 10 ∧
    (((specTier 7 = .rowPerChunk ↔ 7 ≤ 10) ∧
        (10 < 7 → specTierParams (specTier 7) = some (chunkParams 7))) ∧
      (docsWithDocumentId 3 [(⟨"name: a", ⟨"t.csv", 1, ["name"]⟩⟩ : RowDoc)]
          (fun _ l => l)).map (fun c => c.pageContent)
        = [(⟨"name: a", ⟨"t.csv", 1, ["name"]⟩⟩ : RowDoc)].map (fun d => d.pageContent) ∧
      (docsWithDocumentId 3 [(⟨"name: a", ⟨"t.csv", 1, ["name"]⟩⟩ : RowDoc)]
          (fun _ l => l)).length
        = [(⟨"name: a", ⟨"t.csv", 1, ["name"]⟩⟩ : RowDoc)].length) :=
  ⟨by decide, chunker_tier_selection_matches_table 7 3 _ (fun _ l => l) (by decide)⟩

theorem docsWithDocumentId_metadata (documentId : Nat) (docs : List RowDoc)
    (splitter : Nat × Nat → List RowDoc → List RowDoc) :
    ∀ s ∈ docsWithDocumentId documentId docs splitter,
      s.metadata.document_id = documentId := by
  intro s hs
  unfold docsWithDocumentId at hs
  split_ifs at hs <;> (rcases List.mem_map.mp hs with ⟨p, _, rfl⟩; rfl)

/-- C3: for every ingestion (any row documents, any splitter output, any
embedding batch), the bulk chunk insert stores chunk_index values that
are exactly 0, 1, ..., N-1 in order (hence a contiguous, duplicate-free,
zero-based set), and every stored chunk carries the owning document id
both in its `document_id` column and in its stamped metadata. -/
theorem chunk_indices_contiguous_and_stamped {E : Type} (documentId : Nat)
    (docs : List RowDoc) (splitter : Nat × Nat → List RowDoc → List RowDoc)
    (embeds : List E) :
    (chunkInserts documentId (docsWithDocumentId documentId docs splitter) embeds).map
        (fun c => c.chunk_index)
      = List.range (chunkInserts documentId (docsWithDocumentId documentId docs splitter)
          embeds).length ∧
    (chunkInserts documentId (docsWithDocumentId documentId docs splitter) embeds).map
        (fun c => c.document_id)
      = List.replicate (chunkInserts documentId (docsWithDocumentId documentId docs splitter)
          embeds).length documentId ∧
    (chunkInserts documentId (docsWithDocumentId documentId docs splitter) embeds).map
        (fun c => c.metadata.document_id)
      = List.replicate (chunkInserts documentId (docsWithDocumentId documentId docs splitter)
          embeds).length documentId := by
  have hlen : (chunkInserts documentId (docsWithDocumentId documentId docs splitter)
      embeds).length = (docsWithDocumentId documentId docs splitter).length := by
    simp [chunkInserts]
  refine ⟨?_, ?_, ?_⟩
  · rw [hlen]
    calc (chunkInserts documentId (docsWithDocumentId documentId docs splitter) embeds).map
          (fun c => c.chunk_index)
        = (docsWithDocumentId documentId docs splitter).enum.map Prod.fst := by
          simp only [chunkInserts, List.map_map]; rfl
      _ = List.range (docsWithDocumentId documentId docs splitter).length :=
          List.enum_map_fst _
  · rw [hlen]
    calc (chunkInserts documentId (docsWithDocumentId documentId docs splitter) embeds).map
          (fun c => c.document_id)
        = (docsWithDocumentId documentId docs splitter).enum.map (fun _ => documentId) := by
          simp only [chunkInserts, List.map_map]; rfl
      _ = List.replicate (docsWithDocumentId documentId docs splitter).length documentId := by
          rw [List.map_const', List.enum_length]
  · rw [hlen]
    calc (chunkInserts documentId (docsWithDocumentId documentId docs splitter) embeds).map
          (fun c => c.metadata.document_id)
        = ((docsWithDocumentId documentId docs splitter).enum.map Prod.snd).map
            (fun s => s.metadata.document_id) := by
          simp only [chunkInserts, List.map_map]; rfl
      _ = (docsWithDocumentId documentId docs splitter).map
            (fun s => s.metadata.document_id) := by rw [List.enum_map_snd]
      _ = (docsWithDocumentId documentId docs splitter).map (fun _ => documentId) :=
          List.map_congr_left (fun s hs => docsWithDocumentId_metadata _ _ _ s hs)
      _ = List.replicate (docsWithDocumentId documentId docs splitter).length documentId :=
          List.map_const' _ _

/-- C4: whenever the relevance classifier's output is classified "NO"
(`checkIfDataRelated` false, in particular for the output "NO") on a
valid message, the POST pipeline short-circuits: it returns the fixed
refusal message verbatim and never invokes `querySpecificDocuments` —
hence no document-store call, no similarity search and no synthesizer
call occur after the gate.  The outcome is independent of the query
oracle `queryResult`, which witnesses that the retrieval pipeline is
never consulted. -/
theorem relevance_gate_no_short_circuits (message gateResponse : String)
    (queryResult : Except QueryError String)
    (hmsg : message ≠ "") (htrim : listTrim message.data ≠ [])
    (hgate : checkIfDataRelated gateResponse = false) :
    postHandler message gateResponse queryResult = ⟨.success refusalMessage, false⟩ := by
  unfold postHandler
  rw [if_neg hmsg, if_neg htrim, hgate]
  simp

/-- Witness for `relevance_gate_no_short_circuits`: the scenario
`ask("What is the weather today?")` with the classifier answering "NO". -/
theorem relevance_gate_no_short_circuits_witness :
    ("What is the weather today?" : String) ≠ "" ∧
    listTrim "What is the weather today?".data ≠ [] ∧
    checkIfDataRelated "NO" = false ∧
    postHandler "What is the weather today?" "NO" (.ok "ans")
      = ⟨.success refusalMessage, false⟩ :=
  ⟨by decide, by decide, by decide,
    relevance_gate_no_short_circuits _ _ _ (by decide) (by decide) (by decide)⟩

/-- C5 counterexample: an ambiguous classifier output that is not a
clear "NO" does NOT let the question proceed: for the output "MAYBE"
(trimmed-uppercased ≠ "NO") the gate classifies the question as
unrelated and the pipeline returns the refusal without invoking
retrieval — the code defaults to refusing, not to answering. -/
theorem gate_ambiguous_response_refuses :
    listToUpper (listTrim "MAYBE".data) ≠ "NO".data ∧
    checkIfDataRelated "MAYBE" = false ∧
    postHandler "count the rows" "MAYBE" (.ok "ans")
      = ⟨.success refusalMessage, false⟩ := by
  refine ⟨by decide, by decide, ?_⟩
  have hgate : checkIfDataRelated "MAYBE" = false := by decide
  unfold postHandler
  rw [if_neg (by decide : ¬("count the rows" : String) = ""),
    if_neg (by decide : ¬listTrim "count the rows".data = []), hgate]
  simp

/-- C5 (amended): the gate lets a valid question proceed to retrieval
if and only if the classifier output, trimmed and uppercased, is exactly
"YES"; every other output — including ambiguous ones — short-circuits to
the refusal.  (The "default YES" bias of the spec lives in the prompt
instruction to the classifier model, not in the response parsing.) -/
theorem gate_proceeds_iff_exact_yes (message gateResponse : String)
    (queryResult : Except QueryError String)
    (hmsg : message ≠ "") (htrim : listTrim message.data ≠ []) :
    (postHandler message gateResponse queryResult).retrievalInvoked = true ↔
      listToUpper (listTrim gateResponse.data) = "YES".data := by
  by_cases hg : listToUpper (listTrim gateResponse.data) = "YES".data <;>
    rcases queryResult with a | e <;>
      simp [postHandler, checkIfDataRelated, hmsg, htrim, hg]

/-- Witness for `gate_proceeds_iff_exact_yes` at the classifier output
" yes " (lowercase with spaces, normalized to "YES"). -/
theorem gate_proceeds_iff_exact_yes_witness :
    ("count the rows" : String) ≠ "" ∧ listTrim "count the rows".data ≠ [] ∧
    ((postHandler "count the rows" " yes " (.ok "a")).retrievalInvoked = true ↔
      listToUpper (listTrim " yes ".data) = "YES".data) :=
  ⟨by decide, by decide, gate_proceeds_iff_exact_yes _ _ _ (by decide) (by decide)⟩

/-- C6: scope failures are raised before any retrieval executes.  If the
scope is non-empty and no stored document matches any of its ids, the
query fails with the typed error whose message indicates no matching
documents; if the scope is absent (or empty, which the guard treats as
absent) and no documents exist at all, it fails with the typed error
telling the user to upload first.  In both cases no similarity search is
performed and no completion call is issued. -/
theorem scope_errors_raised_before_retrieval (st1 st2 : QueryState)
    (ids : List Nat) (countError1 countError2 : Bool) (question1 question2 : String)
    (search : RetrievalPlan → List String) (complete : String → String)
    (hne : ids ≠ [])
    (hnomatch : st1.documents.filter (fun d => ids.contains d.id) = [])
    (hempty : st2.documents = []) :
    (runQuery st1 (some ids) none countError1 question1 search complete
        = ⟨.error .noDocumentsWithIds, false, 0⟩ ∧
      QueryError.noDocumentsWithIds.message = "No documents found with the specified IDs.") ∧
    (runQuery st2 none none countError2 question2 search complete
        = ⟨.error .noCsvUploaded, false, 0⟩ ∧
      runQuery st2 (some []) none countError2 question2 search complete
        = ⟨.error .noCsvUploaded, false, 0⟩ ∧
      QueryError.noCsvUploaded.message
        = "No CSV file uploaded. Please upload a CSV file first before asking questions.") := by
  have hpos : 0 < ids.length := List.length_pos.mpr hne
  refine ⟨⟨?_, rfl⟩, ?_, ?_, rfl⟩
  · have h1 : selectedDocuments st1.documents (some ids) = [] := by
      show ((if ids.length > 0 then st1.documents.filter (fun d => ids.contains d.id)
        else st1.documents).take 10) = []
      rw [if_pos hpos, hnomatch]
      rfl
    simp [runQuery, planQuery, h1, scopeActive, hpos]
  · have h2 : selectedDocuments st2.documents none = [] := by
      show st2.documents.take 10 = []
      rw [hempty]
      rfl
    simp [runQuery, planQuery, h2, scopeActive]
  · have h3 : selectedDocuments st2.documents (some []) = [] := by
      show ((if ([] : List Nat).length > 0 then st2.documents.filter
        (fun d => ([] : List Nat).contains d.id) else st2.documents).take 10) = []
      rw [hempty]
      rfl
    simp [runQuery, planQuery, h3, scopeActive]

/-- Witness for `scope_errors_raised_before_retrieval`: one store holding
a single document with id 1 queried with the nonexistent scope [99], and
one empty store queried with no scope and with the empty scope. -/
theorem scope_errors_raised_before_retrieval_witness :
    (([99] : List Nat) ≠ [] ∧
      ([(⟨1, "a.csv", some 3⟩ : DocumentRow)] : List DocumentRow).filter
        (fun d => [99].contains d.id) = [] ∧
      (([] : List DocumentRow) = [])) ∧
    ((runQuery ⟨[⟨1, "a.csv", some 3⟩], []⟩ (some [99]) none false "q"
        (fun _ => []) (fun _ => "") = ⟨.error .noDocumentsWithIds, false, 0⟩ ∧
      QueryError.noDocumentsWithIds.message = "No documents found with the specified IDs.") ∧
      (runQuery ⟨[], []⟩ none none false "q" (fun _ => []) (fun _ => "")
          = ⟨.error .noCsvUploaded, false, 0⟩ ∧
        runQuery ⟨[], []⟩ (some []) none false "q" (fun _ => []) (fun _ => "")
          = ⟨.error .noCsvUploaded, false, 0⟩ ∧
        QueryError.noCsvUploaded.message
          = "No CSV file uploaded. Please upload a CSV file first before asking questions.")) :=
  ⟨⟨by decide, by decide, rfl⟩,
    scope_errors_raised_before_retrieval ⟨[⟨1, "a.csv", some 3⟩], []⟩ ⟨[], []⟩
      [99] false false "q" "q" (fun _ => []) (fun _ => "")
      (by decide) (by decide) rfl⟩

/-- C9 counterexample: the answer handed back is NOT the completion
output with surrounding whitespace removed: for the completion output
"  42  " the code returns "  42  " unchanged, whereas the trimmed output
is "42"; moreover an empty completion output is locally substituted by
the fixed fallback string instead of being returned verbatim. -/
theorem synthesizer_output_not_trimmed :
    (runQuery ⟨[⟨1, "f.csv", some 2⟩], []⟩ none none false "q" (fun _ => ["ctx"])
        (fun _ => "  42  ")).result = .ok "  42  " ∧
    trimmedString "  42  " = "42" ∧ ("  42  " : String) ≠ "42" ∧
    (runQuery ⟨[⟨1, "f.csv", some 2⟩], []⟩ none none false "q" (fun _ => ["ctx"])
        (fun _ => "")).result = .ok fallbackAnswer ∧ fallbackAnswer ≠ "" := by
  decide

/-- C9 (amended): for every query that reaches synthesis the pipeline
invokes the completion capability exactly once and returns its output
verbatim and untrimmed, except that a falsy (empty) output is replaced
by the fixed fallback answer. -/
theorem synthesizer_single_call_verbatim (st : QueryState) (ids : Option (List Nat))
    (countError : Bool) (question : String) (search : RetrievalPlan → List String)
    (complete : String → String) (plan : RetrievalPlan)
    (hplan : planQuery st ids none countError = .ok plan) :
    runQuery st ids none countError question search complete =
      ⟨.ok (jsOrString (complete (buildPrompt question (search plan))) fallbackAnswer),
        true, 1⟩ := by
  unfold runQuery
  rw [hplan]

/-- Witness for `synthesizer_single_call_verbatim` on a one-document
store with completion output "the answer". -/
theorem synthesizer_single_call_verbatim_witness :
    planQuery ⟨[⟨1, "f.csv", some 2⟩], []⟩ none none false
      = (Except.ok ⟨2, some 0, 50, none⟩ : Except QueryError RetrievalPlan) ∧
    runQuery ⟨[⟨1, "f.csv", some 2⟩], []⟩ none none false "q" (fun _ => ["ctx"])
        (fun _ => "the answer")
      = ⟨.ok (jsOrString ((fun _ : String => "the answer")
          (buildPrompt "q" ((fun _ : RetrievalPlan => ["ctx"]) ⟨2, some 0, 50, none⟩)))
          fallbackAnswer), true, 1⟩ :=
  ⟨by decide,
    synthesizer_single_call_verbatim ⟨[⟨1, "f.csv", some 2⟩], []⟩ none false "q"
      (fun _ => ["ctx"]) (fun _ => "the answer") ⟨2, some 0, 50, none⟩ (by decide)⟩

/-- C10: when the document metadata row insert succeeds but a later step
fails (the embedding batch or the bulk chunk insert),
`processUploadedFile` returns the structured failure result — success
false, chunksStored 0, an error message — instead of throwing, and the
already-inserted document row remains persisted while no chunk for it is
stored: a document with zero chunks can exist after a failed ingestion,
as there is no compensating delete. -/
theorem orphan_document_on_failed_ingestion {E : Type} (st : IngestState E)
    (file : FileInfo) (docs : List RowDoc) (csvText : String) (documentId : Nat)
    (splitter : Nat × Nat → List RowDoc → List RowDoc)
    (embedBatch : List String → Except String (List E))
    (chunkInsertError : Option String)
    (hfail : (embedBatch ((docsWithDocumentId documentId docs splitter).map
        (fun d => d.pageContent))).isOk = false ∨ chunkInsertError ≠ none)
    (hfresh : ∀ c ∈ st.chunks, c.document_id ≠ documentId) :
    (processUploadedFile st file (.ok (docs, csvText)) (.ok documentId) splitter
        embedBatch chunkInsertError).1.success = false ∧
    (processUploadedFile st file (.ok (docs, csvText)) (.ok documentId) splitter
        embedBatch chunkInsertError).1.chunksStored = 0 ∧
    (processUploadedFile st file (.ok (docs, csvText)) (.ok documentId) splitter
        embedBatch chunkInsertError).1.error.isSome = true ∧
    (processUploadedFile st file (.ok (docs, csvText)) (.ok documentId) splitter
        embedBatch chunkInsertError).2.documents
      = st.documents ++ [storedDocumentRow file documentId docs csvText] ∧
    (processUploadedFile st file (.ok (docs, csvText)) (.ok documentId) splitter
        embedBatch chunkInsertError).2.chunks = st.chunks ∧
    ∀ c ∈ (processUploadedFile st file (.ok (docs, csvText)) (.ok documentId) splitter
        embedBatch chunkInsertError).2.chunks, c.document_id ≠ documentId := by
  rcases hem : embedBatch ((docsWithDocumentId documentId docs splitter).map
      (fun d => d.pageContent)) with e | embeds
  · have hred : processUploadedFile st file (.ok (docs, csvText)) (.ok documentId) splitter
        embedBatch chunkInsertError
        = (⟨false, 0, some e, file.name, none⟩,
          ⟨st.documents ++ [storedDocumentRow file documentId docs csvText], st.chunks⟩) := by
      simp [processUploadedFile, hem]
    rw [hred]
    exact ⟨rfl, rfl, rfl, rfl, rfl, hfresh⟩
  · rcases hci : chunkInsertError with _ | m
    · exfalso
      rw [hci] at hfail
      rcases hfail with h | h
      · rw [hem] at h
        simp [Except.isOk, Except.toBool] at h
      · exact h rfl
    · have hred : processUploadedFile st file (.ok (docs, csvText)) (.ok documentId) splitter
          embedBatch (some m)
          = (⟨false, 0, some ("Failed to insert chunks: " ++ m), file.name, none⟩,
            ⟨st.documents ++ [storedDocumentRow file documentId docs csvText], st.chunks⟩) := by
        simp [processUploadedFile, hem]
      rw [hred]
      exact ⟨rfl, rfl, rfl, rfl, rfl, hfresh⟩

/-- Witness for `orphan_document_on_failed_ingestion`: an empty store, a
one-row parse, document id 7, and an embedding batch that fails. -/
theorem orphan_document_on_failed_ingestion_witness :
    (((fun _ : List String => (.error "embed boom" : Except String (List Nat)))
        ((docsWithDocumentId 7 [(⟨"name: a", ⟨"t.csv", 1, ["name"]⟩⟩ : RowDoc)]
          (fun _ l => l)).map (fun d => d.pageContent))).isOk = false ∨
      (none : Option String) ≠ none) ∧
    ((processUploadedFile (⟨[], []⟩ : IngestState Nat) ⟨"t.csv", 9, ""⟩
        (.ok ([(⟨"name: a", ⟨"t.csv", 1, ["name"]⟩⟩ : RowDoc)], "name\na")) (.ok 7)
        (fun _ l => l) (fun _ => .error "embed boom") none).1.success = false ∧
      (processUploadedFile (⟨[], []⟩ : IngestState Nat) ⟨"t.csv", 9, ""⟩
        (.ok ([(⟨"name: a", ⟨"t.csv", 1, ["name"]⟩⟩ : RowDoc)], "name\na")) (.ok 7)
        (fun _ l => l) (fun _ => .error "embed boom") none).2.documents
        = [] ++ [storedDocumentRow ⟨"t.csv", 9, ""⟩ 7
            [(⟨"name: a", ⟨"t.csv", 1, ["name"]⟩⟩ : RowDoc)] "name\na"] ∧
      (processUploadedFile (⟨[], []⟩ : IngestState Nat) ⟨"t.csv", 9, ""⟩
        (.ok ([(⟨"name: a", ⟨"t.csv", 1, ["name"]⟩⟩ : RowDoc)], "name\na")) (.ok 7)
        (fun _ l => l) (fun _ => .error "embed boom") none).2.chunks = []) :=
  ⟨Or.inl (by decide),
    by
      have h := orphan_document_on_failed_ingestion (⟨[], []⟩ : IngestState Nat)
        ⟨"t.csv", 9, ""⟩ [(⟨"name: a", ⟨"t.csv", 1, ["name"]⟩⟩ : RowDoc)] "name\na" 7
        (fun _ l => l) (fun _ => .error "embed boom") none
        (Or.inl (by decide)) (by intro c hc; simp at hc)
      exact ⟨h.1, h.2.2.2.1, h.2.2.2.2.1⟩⟩

end CsvChatbot
